import Mathlib

/-!
Verification of the LiMAX17048G fuel-gauge driver register protocol.

Shallow embedding of src/LiMAX17048G.cpp (MAX17048G driver). Bytes are
modelled as Nat (values below 256; the C uint8_t / int bit operations are
translated with &&&, |||, ^^^ 255 for the 8-bit complement, <<<, >>>).
Each bus write transaction is captured as the register address plus the data
bytes written; reads are modelled by an explicit device state holding the two
CONFIG bytes, and the echoing mock device of the testable properties is
applyWrite, which stores the written CONFIG bytes back into the state.
C double arithmetic is embedded as exact rational arithmetic over the
rationals.
-/

namespace MAX17048G

/-- Modelled from the spec: the device and register address constants are
declared in the header LiMAX17048G.h, which is not among the sources; the
spec fixes them as compile-time one-byte constants per the device datasheet
(VCELL, SOC, MODE, VERSION, CONFIG = RCOMP byte followed by the
status/threshold byte, COMMAND). -/
def MAX1704X_ADDR : Nat := 0x36

def MAX1704X_VCELL_ADDR : Nat := 0x02

def MAX1704X_SOC_ADDR : Nat := 0x04

def MAX1704X_MODE_ADDR : Nat := 0x06

def MAX1704X_VERSION_ADDR : Nat := 0x08

def MAX1704X_CONFIG_ADDR : Nat := 0x0C

def MAX1704X_RCOMP_ADDR : Nat := 0x0C

def MAX1704X_ATHRD_ADDR : Nat := 0x0D

def MAX1704X_COMMAND_ADDR : Nat := 0xFE

/-- One bus write transaction: the register address byte followed by the data
bytes, exactly the payload the driver emits between beginTransmission and
endTransmission. -/
structure WriteTx where
  reg : Nat
  data : List Nat
  deriving DecidableEq, Repr

/-- The full byte payload of a write transaction as it appears on the wire
after the device address: register byte then data bytes. -/
def WriteTx.payload (tx : WriteTx) : List Nat := tx.reg :: tx.data

/-- Device-side state visible to the driver: the two bytes of the CONFIG
register (high byte RCOMP = compensation, low byte = packed status). The
driver itself is stateless; reads of CONFIG return these bytes. -/
structure Config where
  rcomp : Nat
  status : Nat
  deriving DecidableEq, Repr

/-- Embeds MAX17048G::getStatus: single-byte read of the CONFIG low byte at
MAX1704X_ATHRD_ADDR. -/
def getStatus (d : Config) : Nat := d.status

/-- Embeds MAX17048G::getCompensateValue: single-byte read of the CONFIG high
byte at MAX1704X_RCOMP_ADDR. -/
def getCompensateValue (d : Config) : Nat := d.rcomp

/-- Modelled from the spec: getCompensation is called by clearAlertInterrupt,
sleep and wake but is declared only in the missing header LiMAX17048G.h; the
spec describes readCompensation as a single-byte read of the CONFIG high byte
(RCOMP). -/
def getCompensation (d : Config) : Nat := d.rcomp

/-- Decode of the alert threshold from the status byte, the expression
( ~status & 0x1F ) + 1 of MAX17048G::getAlertThreshold (C promotes the
uint8_t to int, complements, and keeps the low five bits, which on bytes is
(status ^^^ 255) &&& 0x1F). -/
def decodeThreshold (status : Nat) : Nat := ((status ^^^ 255) &&& 0x1F) + 1

/-- Embeds MAX17048G::getAlertThreshold: ( ~getStatus() & 0x1F ) + 1. -/
def getAlertThreshold (d : Config) : Nat := decodeThreshold (getStatus d)

/-- The clamp at the top of MAX17048G::setAlertThreshold:
if (threshold > 32) threshold = 32; else if (threshold < 1) threshold = 1. -/
def clampThreshold (threshold : Nat) : Nat :=
  if 32 < threshold then 32 else if threshold < 1 then 1 else threshold

/-- The encode step of MAX17048G::setAlertThreshold:
threshold = ( ~threshold + 1 ) & 0x1F, the 5-bit twos-complement; on bytes
~threshold + 1 is (threshold ^^^ 255) + 1. -/
def encodeThreshold (threshold : Nat) : Nat :=
  ((threshold ^^^ 255) + 1) &&& 0x1F

/-- Embeds MAX17048G::setCompensation: reads the current status byte, then
writes CONFIG = (compensation, status). -/
def setCompensation (d : Config) (compensation : Nat) : WriteTx :=
  ⟨MAX1704X_CONFIG_ADDR, [compensation, getStatus d]⟩

/-- Embeds MAX17048G::setAlertThreshold: clamps and encodes the threshold,
reads the two CONFIG bytes (compensation, then the status byte masked to its
sleep bit with & 0x80), and writes CONFIG = (compensation, sleepBit | thrd).

Modelled from the spec for one identifier: the written low byte is
sleepBit | thrd in the source, where thrd is declared only in the missing
header LiMAX17048G.h; the spec states the write as
CONFIG = (compensation, sleepBit | encoded), so thrd is the encoded clamped
threshold computed just above the write. -/
def setAlertThreshold (d : Config) (threshold : Nat) : WriteTx :=
  let thrd := encodeThreshold (clampThreshold threshold)
  let compensation := d.rcomp
  let sleepBit := d.status &&& 0x80
  ⟨MAX1704X_CONFIG_ADDR, [compensation, sleepBit ||| thrd]⟩

/-- Embeds MAX17048G::clearAlertInterrupt: reads compensation and status,
writes CONFIG = (compensation, 0xDF & status). -/
def clearAlertInterrupt (d : Config) : WriteTx :=
  ⟨MAX1704X_CONFIG_ADDR, [getCompensation d, 0xDF &&& getStatus d]⟩

/-- Embeds MAX17048G::sleep: reads compensation and the decoded alert
threshold, writes CONFIG = (compensation, 0x80 | threshold). -/
def sleep (d : Config) : WriteTx :=
  ⟨MAX1704X_CONFIG_ADDR, [getCompensation d, 0x80 ||| getAlertThreshold d]⟩

/-- Embeds MAX17048G::wake: reads compensation and the decoded alert
threshold, writes CONFIG = (compensation, 0x7F & threshold). -/
def wake (d : Config) : WriteTx :=
  ⟨MAX1704X_CONFIG_ADDR, [getCompensation d, 0x7F &&& getAlertThreshold d]⟩

/-- Embeds MAX17048G::sleeping: ( getStatus() & 0x80 ) == 0x80. -/
def sleeping (d : Config) : Bool := (getStatus d &&& 0x80) == 0x80

/-- Embeds MAX17048G::quickStart: writes 0x40, 0x00 to the MODE register. -/
def quickStart : WriteTx := ⟨MAX1704X_MODE_ADDR, [0x40, 0x00]⟩

/-- Embeds MAX17048G::reset: writes 0x54, 0x00 to the COMMAND register. -/
def reset : WriteTx := ⟨MAX1704X_COMMAND_ADDR, [0x54, 0x00]⟩

/-- The echoing mock device of the testable properties: a write to the CONFIG
register stores its two data bytes, which subsequent reads return. -/
def applyWrite (d : Config) (tx : WriteTx) : Config :=
  if tx.reg = MAX1704X_CONFIG_ADDR then
    ⟨tx.data.getD 0 d.rcomp, tx.data.getD 1 d.status⟩
  else d

/-- Embeds MAX17048G::getCellVolt: reads two bytes from VCELL and returns
((byte0 << 4) + (byte1 >> 4)) * 0.00125 * _ic, with _ic the per-variant
scale multiplier (1 or 2); double arithmetic embedded over the rationals. -/
def getCellVolt (ic : Nat) (byte0 byte1 : Nat) : ℚ :=
  (((byte0 <<< 4) + (byte1 >>> 4) : Nat) : ℚ) * 0.00125 * ic

/-- Embeds MAX17048G::getSOC: reads two bytes from SOC and returns
byte0 + byte1 / 256. -/
def getSOC (byte0 byte1 : Nat) : ℚ := (byte0 : ℚ) + (byte1 : ℚ) / 256

/-- Embeds MAX17048G::getVersion: reads two bytes from VERSION and returns
(byte0 << 8) + byte1. -/
def getVersion (byte0 byte1 : Nat) : Nat := (byte0 <<< 8) + byte1

/- Helper lemmas shared by the claim theorems. -/

theorem and_31_lt (x : Nat) : x &&& 31 < 32 :=
  Nat.lt_succ_of_le Nat.and_le_right

theorem encodeThreshold_lt (t : Nat) : encodeThreshold t < 32 :=
  and_31_lt _

theorem decodeThreshold_le (s : Nat) : decodeThreshold s ≤ 32 := by
  have h := and_31_lt (s ^^^ 255)
  simp only [decodeThreshold]
  omega

theorem decodeThreshold_pos (s : Nat) : 1 ≤ decodeThreshold s :=
  Nat.le_add_left 1 _

theorem testBit_false_of_lt {e : Nat} (k : Nat) {i : Nat} (he : e < 2 ^ k)
    (hk : k ≤ i) : e.testBit i = false :=
  Nat.testBit_lt_two_pow
    (lt_of_lt_of_le he (Nat.pow_le_pow_right (by norm_num) hk))

theorem sleepBit_lor_bits (s e : Nat) (he : e < 32) :
    ((s &&& 128) ||| e).testBit 7 = s.testBit 7 ∧
    ((s &&& 128) ||| e).testBit 6 = false ∧
    ((s &&& 128) ||| e).testBit 5 = false ∧
    ((s &&& 128) ||| e) &&& 31 = e := by
  have h128 : (128 : Nat) = 2 ^ 7 := by norm_num
  have h31 : (31 : Nat) = 2 ^ 5 - 1 := by norm_num
  have he' : e < 2 ^ 5 := lt_of_lt_of_le he (by norm_num)
  have e5 : ∀ i, 5 ≤ i → e.testBit i = false := fun i hi =>
    testBit_false_of_lt 5 he' hi
  have t7 : Nat.testBit 128 7 = true := by decide
  have t6 : Nat.testBit 128 6 = false := by decide
  have t5 : Nat.testBit 128 5 = false := by decide
  refine ⟨?_, ?_, ?_, ?_⟩
  · rw [Nat.testBit_or, Nat.testBit_and, t7, Bool.and_true,
      e5 7 (by norm_num), Bool.or_false]
  · rw [Nat.testBit_or, Nat.testBit_and, t6, Bool.and_false,
      e5 6 (by norm_num), Bool.or_false]
  · rw [Nat.testBit_or, Nat.testBit_and, t5, Bool.and_false,
      e5 5 (by norm_num), Bool.or_false]
  · apply Nat.eq_of_testBit_eq
    intro i
    rw [Nat.testBit_and, Nat.testBit_or, Nat.testBit_and, h128, h31]
    simp only [Nat.testBit_two_pow, Nat.testBit_two_pow_sub_one]
    by_cases hi : i < 5
    · have h7 : ¬(7 = i) := by omega
      simp [hi, h7]
    · simp [hi, e5 i (Nat.not_lt.1 hi)]

theorem xor255_and_31 (s : Nat) : (s ^^^ 255) &&& 31 = (s &&& 31) ^^^ 31 := by
  have h255 : (255 : Nat) = 2 ^ 8 - 1 := by norm_num
  have h31 : (31 : Nat) = 2 ^ 5 - 1 := by norm_num
  apply Nat.eq_of_testBit_eq
  intro i
  rw [h255, h31]
  simp only [Nat.testBit_and, Nat.testBit_xor, Nat.testBit_two_pow_sub_one]
  by_cases hi : i < 5
  · have h8 : i < 8 := by omega
    simp [hi, h8]
  · simp [hi]

theorem shiftLeft_lor_eq_add (a b k : Nat) (hb : b < 2 ^ k) :
    (a <<< k) ||| b = a * 2 ^ k + b := by
  apply Nat.eq_of_testBit_eq
  intro j
  rw [Nat.testBit_or, Nat.testBit_shiftLeft, Nat.mul_comm,
    Nat.testBit_mul_pow_two_add a hb j]
  by_cases h : j < k
  · simp [h, Nat.not_le.2 h]
  · have hj : k ≤ j := Nat.not_lt.1 h
    simp [h, hj, testBit_false_of_lt k hb hj]

theorem lor_128_and_128 (t : Nat) : (128 ||| t) &&& 128 = 128 := by
  apply Nat.eq_of_testBit_eq
  intro i
  rw [Nat.testBit_and, Nat.testBit_or]
  cases h : Nat.testBit 128 i <;> simp [h]

theorem and_127_and_128 (t : Nat) : (127 &&& t) &&& 128 = 0 := by
  apply Nat.eq_of_testBit_eq
  intro i
  rw [Nat.testBit_and, Nat.testBit_and]
  have h127 : Nat.testBit 127 i = decide (i < 7) := by
    have h : (127 : Nat) = 2 ^ 7 - 1 := by norm_num
    rw [h, Nat.testBit_two_pow_sub_one]
  have h128 : Nat.testBit 128 i = decide (7 = i) := by
    have h : (128 : Nat) = 2 ^ 7 := by norm_num
    rw [h, Nat.testBit_two_pow]
  rw [h127, h128]
  by_cases hi : i < 7
  · have h7 : ¬(7 = i) := by omega
    simp [hi, h7]
  · simp [hi]

/- Claim theorems. -/

/-- C9: for every status byte read by the driver, getAlertThreshold returns a
value in the range one to thirty-two: the decode ( ~s & 0x1F ) + 1 always
yields at least 1 and at most 32. -/
theorem getAlertThreshold_range (d : Config) :
    1 ≤ getAlertThreshold d ∧ getAlertThreshold d ≤ 32 :=
  ⟨decodeThreshold_pos _, decodeThreshold_le _⟩

/-- C7: quickStart writes exactly the two bytes 0x40, 0x00 to the MODE
register and reset writes exactly the two bytes 0x54, 0x00 to the COMMAND
register; in each case that register address and those two data bytes are the
whole payload of the single write transaction. -/
theorem quickStart_reset_payload :
    quickStart.payload = [MAX1704X_MODE_ADDR, 0x40, 0x00] ∧
    reset.payload = [MAX1704X_COMMAND_ADDR, 0x54, 0x00] :=
  ⟨rfl, rfl⟩

/-- C1: for every prior CONFIG content (compensation byte c = d.rcomp, status
byte s = d.status) read back, setAlertThreshold writes a two-byte CONFIG
whose high byte is c and whose low byte is (s & 0x80) | encoded, encoded
being the 5-bit twos-complement encoding of the clamped percent; bit 7 of
the written low byte equals bit 7 of s (sleep bit preserved), bit 6 is
cleared (alert-asserted replaced), and the low five bits are exactly the
encoded threshold (prior threshold bits replaced). -/
theorem setAlertThreshold_frame (d : Config) (percent : Nat) :
    setAlertThreshold d percent =
      ⟨MAX1704X_CONFIG_ADDR,
        [d.rcomp, (d.status &&& 0x80) ||| encodeThreshold (clampThreshold percent)]⟩ ∧
    ((d.status &&& 0x80) |||
        encodeThreshold (clampThreshold percent)).testBit 7 = d.status.testBit 7 ∧
    ((d.status &&& 0x80) |||
        encodeThreshold (clampThreshold percent)).testBit 6 = false ∧
    ((d.status &&& 0x80) ||| encodeThreshold (clampThreshold percent)) &&& 31 =
      encodeThreshold (clampThreshold percent) := by
  obtain ⟨h7, h6, h5, hlow⟩ :=
    sleepBit_lor_bits d.status _ (encodeThreshold_lt (clampThreshold percent))
  exact ⟨rfl, h7, h6, hlow⟩

/-- C2: for every percent p in [1,32], decoding the encoded threshold
recovers p: any status byte whose low five bits are the encoding written by
setAlertThreshold decodes back to p under getAlertThreshold. -/
theorem decode_encode_roundTrip (p s : Nat) (hp1 : 1 ≤ p) (hp2 : p ≤ 32)
    (hs : s &&& 31 = encodeThreshold p) :
    decodeThreshold s = p := by
  have key : decodeThreshold s = ((s &&& 31) ^^^ 31) + 1 := by
    rw [decodeThreshold, xor255_and_31]
  rw [key, hs]
  interval_cases p <;> decide

/-- Witness for C2 at p = 4: the encoding of 4 decodes back to 4. -/
theorem decode_encode_roundTrip_witness :
    decodeThreshold (encodeThreshold 4) = 4 :=
  decode_encode_roundTrip 4 (encodeThreshold 4) (by decide) (by decide)
    (by decide)

/-- C3: setAlertThreshold clamps its input to [1,32] before encoding: an
input below 1 is treated as 1 and an input above 32 as 32, and the low five
bits of the written status byte are the encoding of the clamped percent. -/
theorem setAlertThreshold_clamps (d : Config) (t : Nat) :
    (t < 1 → clampThreshold t = 1) ∧
    (32 < t → clampThreshold t = 32) ∧
    1 ≤ clampThreshold t ∧ clampThreshold t ≤ 32 ∧
    (setAlertThreshold d t).data.getD 1 0 &&& 31 =
      encodeThreshold (clampThreshold t) := by
  refine ⟨?_, ?_, ?_, ?_, ?_⟩
  · intro h
    simp only [clampThreshold]
    split_ifs <;> omega
  · intro h
    simp only [clampThreshold]
    split_ifs <;> omega
  · simp only [clampThreshold]
    split_ifs <;> omega
  · simp only [clampThreshold]
    split_ifs <;> omega
  · exact (sleepBit_lor_bits d.status _
      (encodeThreshold_lt (clampThreshold t))).2.2.2

/-- Witness for C3 at the boundary inputs 0 and 33. -/
theorem setAlertThreshold_clamps_witness :
    clampThreshold 0 = 1 ∧ clampThreshold 33 = 32 :=
  ⟨(setAlertThreshold_clamps ⟨0, 0⟩ 0).1 (by decide),
   (setAlertThreshold_clamps ⟨0, 0⟩ 33).2.1 (by decide)⟩

/-- C4: for every pair of bytes returned by the 2-byte VCELL read,
getCellVolt returns ((byte0 << 4) + (byte1 >> 4)) * 0.00125 * scale, and for
the raw 16-bit value r = (byte0 << 8) | byte1 this equals
(r >> 4) * 0.00125 * scale. -/
theorem getCellVolt_spec (ic byte0 byte1 : Nat) (h1 : byte1 < 256) :
    getCellVolt ic byte0 byte1 =
      (((((byte0 <<< 8) ||| byte1) >>> 4 : Nat) : ℚ)) * 0.00125 * ic := by
  have key : ((byte0 <<< 8) ||| byte1) >>> 4 = (byte0 <<< 4) + (byte1 >>> 4) := by
    rw [shiftLeft_lor_eq_add byte0 byte1 8 (lt_of_lt_of_le h1 (by norm_num))]
    rw [Nat.shiftRight_eq_div_pow, Nat.shiftRight_eq_div_pow, Nat.shiftLeft_eq]
    have h2 : (2 : Nat) ^ 8 = 256 := by norm_num
    have h4 : (2 : Nat) ^ 4 = 16 := by norm_num
    rw [h2, h4]
    omega
  rw [getCellVolt, key]

/-- Witness for C4 at scale 2 and bytes 0xAB, 0xCD. -/
theorem getCellVolt_spec_witness :
    getCellVolt 2 0xAB 0xCD =
      (((((0xAB <<< 8) ||| 0xCD) >>> 4 : Nat) : ℚ)) * 0.00125 * 2 :=
  getCellVolt_spec 2 0xAB 0xCD (by decide)

/-- C5: for every status byte s read back (s = d.status), setCompensation
writes back CONFIG as the two bytes (value, s): every bit of the status byte
is preserved while the compensation byte is replaced by the given value. -/
theorem setCompensation_frame (d : Config) (value : Nat) :
    setCompensation d value = ⟨MAX1704X_CONFIG_ADDR, [value, d.status]⟩ ∧
    ∀ i, ((setCompensation d value).data.getD 1 0).testBit i =
      d.status.testBit i :=
  ⟨rfl, fun _ => rfl⟩

/-- C6 counterexample: the claim states that clearAlertInterrupt clears the
alert-asserted bit calling it bit 6 and preserves every other bit, but the
mask 0xDF = 1101 1111 clears bit 5, not bit 6: at read-back status byte
0x7F (whose bits 5 and 6 are both set) the written low byte is 0x5F, in
which bit 6 is still set and bit 5 - a bit other than 6 - has not been
preserved. -/
theorem clearAlertInterrupt_bit6_counterexample :
    (clearAlertInterrupt ⟨0, 0x7F⟩).data.getD 1 0 = 0x5F ∧
    ((clearAlertInterrupt ⟨0, 0x7F⟩).data.getD 1 0).testBit 6 = true ∧
    (0x7F : Nat).testBit 5 = true ∧
    ((clearAlertInterrupt ⟨0, 0x7F⟩).data.getD 1 0).testBit 5 = false := by
  decide

/-- C6 (amended): for every compensation byte c = d.rcomp and status byte
s = d.status read back, clearAlertInterrupt writes back
CONFIG = (c, s & 0xDF): bit 5 (value 0x20, the alert-asserted flag position)
of the written status byte is cleared, every other bit of both bytes -
including bit 6, the threshold bits and the sleep flag - is preserved, and
for status byte 0x7F the written low byte is 0x5F. -/
theorem clearAlertInterrupt_frame (d : Config) (hs : d.status < 256) :
    clearAlertInterrupt d =
      ⟨MAX1704X_CONFIG_ADDR, [d.rcomp, 0xDF &&& d.status]⟩ ∧
    (0xDF &&& d.status).testBit 5 = false ∧
    (∀ i, i ≠ 5 → (0xDF &&& d.status).testBit i = d.status.testBit i) ∧
    0xDF &&& (0x7F : Nat) = 0x5F := by
  have h223 : ∀ j : Fin 8, j.val ≠ 5 → Nat.testBit 223 j.val = true := by decide
  refine ⟨rfl, ?_, ?_, by decide⟩
  · have h : Nat.testBit 223 5 = false := by decide
    rw [Nat.testBit_and, h, Bool.false_and]
  · intro i hi
    rw [Nat.testBit_and]
    rcases Nat.lt_or_ge i 8 with h8 | h8
    · rw [h223 ⟨i, h8⟩ hi, Bool.true_and]
    · have ha : Nat.testBit 223 i = false :=
        testBit_false_of_lt 8 (by norm_num) h8
      have hb : d.status.testBit i = false :=
        testBit_false_of_lt 8 (lt_of_lt_of_le hs (by norm_num)) h8
      rw [ha, hb, Bool.false_and]

/-- Witness for C6 at compensation 0 and status byte 0x7F. -/
theorem clearAlertInterrupt_frame_witness :
    clearAlertInterrupt ⟨0, 0x7F⟩ =
      ⟨MAX1704X_CONFIG_ADDR, [0, 0xDF &&& 0x7F]⟩ ∧
    0xDF &&& (0x7F : Nat) = 0x5F :=
  ⟨(clearAlertInterrupt_frame ⟨0, 0x7F⟩ (by decide)).1,
   (clearAlertInterrupt_frame ⟨0, 0x7F⟩ (by decide)).2.2.2⟩

/-- C8: against the echoing mock device, sleeping returns true immediately
after sleep completes (the written low byte has bit 7 set) and false
immediately after wake completes (the written low byte has bit 7 clear), for
every prior device state. -/
theorem sleeping_after_sleep_wake (d : Config) :
    sleeping (applyWrite d (sleep d)) = true ∧
    sleeping (applyWrite d (wake d)) = false := by
  have happly : applyWrite d (sleep d) =
      ⟨getCompensation d, 0x80 ||| getAlertThreshold d⟩ := rfl
  have happly2 : applyWrite d (wake d) =
      ⟨getCompensation d, 0x7F &&& getAlertThreshold d⟩ := rfl
  constructor
  · rw [happly]
    show ((0x80 ||| getAlertThreshold d) &&& 0x80 == 0x80) = true
    rw [lor_128_and_128]
    rfl
  · rw [happly2]
    show ((0x7F &&& getAlertThreshold d) &&& 0x80 == 0x80) = false
    rw [and_127_and_128]
    rfl

/-- C10: sleep and wake write the decoded threshold (an integer in [1,32])
directly into the CONFIG low byte instead of its 5-bit twos-complement
encoding, so the stored threshold is not preserved: against the echoing mock
device, if the threshold decoded before the call is p with p in [1,31], then
getAlertThreshold afterwards returns 32 - p; and for p = 32 the written low
byte of sleep has bit 5 set, outside the 5-bit threshold field. -/
theorem sleep_wake_corrupt_threshold (d : Config) :
    (1 ≤ getAlertThreshold d → getAlertThreshold d ≤ 31 →
      getAlertThreshold (applyWrite d (sleep d)) = 32 - getAlertThreshold d ∧
      getAlertThreshold (applyWrite d (wake d)) = 32 - getAlertThreshold d) ∧
    (getAlertThreshold d = 32 →
      ((sleep d).data.getD 1 0).testBit 5 = true) := by
  have key : ∀ t : Fin 33,
      (1 ≤ t.val → t.val ≤ 31 →
        decodeThreshold (128 ||| t.val) = 32 - t.val ∧
        decodeThreshold (127 &&& t.val) = 32 - t.val) ∧
      (t.val = 32 → Nat.testBit (128 ||| t.val) 5 = true) := by decide
  have hle : getAlertThreshold d ≤ 32 := decodeThreshold_le (getStatus d)
  obtain ⟨k1, k2⟩ := key ⟨getAlertThreshold d, by omega⟩
  constructor
  · intro h1 h2
    exact ⟨(k1 h1 h2).1, (k1 h1 h2).2⟩
  · intro h32
    exact k2 h32

/-- Witness for C10 at device state (0, 1), whose decoded threshold is 31:
after sleep the decoded threshold reads back as 1 = 32 - 31. -/
theorem sleep_wake_corrupt_threshold_witness :
    getAlertThreshold (applyWrite ⟨0, 1⟩ (sleep ⟨0, 1⟩)) = 1 := by
  have h := (sleep_wake_corrupt_threshold ⟨0, 1⟩).1 (by decide) (by decide)
  exact h.1.trans (by decide)

end MAX17048G
